import Mathlib

/-!
Shallow embedding of `airflow/sensors/weekday.py` (`DayOfWeekSensor`).
Dates are modelled as proleptic-Gregorian calendar dates with an explicit
ISO weekday computation; the `WeekDay` enumeration and its
`validate_week_day` classmethod live in `airflow/utils/weekday.py`,
which is outside the supplied source, so that function is modelled from
the specification (see its doc comment).
-/

namespace Airflow

/-- ISO-numbered weekday enumeration, Monday = 1 .. Sunday = 7
(mirrors `airflow.utils.weekday.WeekDay`). -/
inductive WeekDay where
  | MONDAY
  | TUESDAY
  | WEDNESDAY
  | THURSDAY
  | FRIDAY
  | SATURDAY
  | SUNDAY
deriving DecidableEq, Repr

/-- ISO weekday number of a `WeekDay` value. -/
def WeekDay.iso : WeekDay → Nat
  | .MONDAY => 1
  | .TUESDAY => 2
  | .WEDNESDAY => 3
  | .THURSDAY => 4
  | .FRIDAY => 5
  | .SATURDAY => 6
  | .SUNDAY => 7

/-- Name of a `WeekDay` member, as in the Python enum's `.name`. -/
def WeekDay.dayName : WeekDay → String
  | .MONDAY => "MONDAY"
  | .TUESDAY => "TUESDAY"
  | .WEDNESDAY => "WEDNESDAY"
  | .THURSDAY => "THURSDAY"
  | .FRIDAY => "FRIDAY"
  | .SATURDAY => "SATURDAY"
  | .SUNDAY => "SUNDAY"

/-- Case-insensitive lookup of a weekday by its full name, as the
uppercasing membership test of the Python enum does. -/
def WeekDay.fromName (s : String) : Option WeekDay :=
  let u := s.toUpper
  if u == "MONDAY" then some .MONDAY
  else if u == "TUESDAY" then some .TUESDAY
  else if u == "WEDNESDAY" then some .WEDNESDAY
  else if u == "THURSDAY" then some .THURSDAY
  else if u == "FRIDAY" then some .FRIDAY
  else if u == "SATURDAY" then some .SATURDAY
  else if u == "SUNDAY" then some .SUNDAY
  else none

/-- Lookup of a weekday by its ISO number, as the Python call
`WeekDay(n)` does (failing on numbers outside 1..7). -/
def WeekDay.ofIso : Nat → Option WeekDay
  | 1 => some .MONDAY
  | 2 => some .TUESDAY
  | 3 => some .WEDNESDAY
  | 4 => some .THURSDAY
  | 5 => some .FRIDAY
  | 6 => some .SATURDAY
  | 7 => some .SUNDAY
  | _ => none

/-- Proleptic Gregorian calendar date. -/
structure Date where
  year : Nat
  month : Nat
  day : Nat
deriving DecidableEq, Repr

/-- Gregorian leap-year test. -/
def isLeap (y : Nat) : Bool :=
  (y % 4 == 0 && y % 100 != 0) || y % 400 == 0

/-- Days in the year strictly before month `m` begins. -/
def daysBeforeMonth (y m : Nat) : Nat :=
  ([0, 31, 59, 90, 120, 151, 181, 212, 243, 273, 304, 334].getD (m - 1) 0)
    + (if 3 ≤ m ∧ isLeap y then 1 else 0)

/-- Rata-die day number: day 1 is 0001-01-01 of the proleptic Gregorian
calendar (a Monday). -/
def Date.rataDie (dt : Date) : Nat :=
  365 * (dt.year - 1) + (dt.year - 1) / 4 - (dt.year - 1) / 100 + (dt.year - 1) / 400
    + daysBeforeMonth dt.year dt.month + dt.day

/-- ISO weekday of a date, Monday = 1 .. Sunday = 7, as Python's
`date.isoweekday()`. -/
def Date.isoweekday (dt : Date) : Nat :=
  (dt.rataDie - 1) % 7 + 1

/-- One element of an iterable weekday specification: either a weekday
name string or an already-normalized `WeekDay` enum value. -/
inductive WeekDayItem where
  | name (s : String)
  | day (w : WeekDay)
deriving DecidableEq, Repr

/-- The shapes a caller may pass for `week_day`: a single name string, a
single `WeekDay` value, an iterable of names or values, or a value of
some unsupported type. -/
inductive WeekDaySpec where
  | str (s : String)
  | day (w : WeekDay)
  | coll (items : List WeekDayItem)
  | wrongType
deriving DecidableEq, Repr

/-- Conversion of one specification item to a `WeekDay`, failing on an
unknown name. -/
def WeekDayItem.convert : WeekDayItem → Option WeekDay
  | .name s => WeekDay.fromName s
  | .day w => some w

/-- Conversion of every item of an iterable specification, failing as
soon as one item fails (as the validating set comprehension does). -/
def convertAll : List WeekDayItem → Option (List WeekDay)
  | [] => some []
  | it :: rest =>
    match it.convert, convertAll rest with
    | some w, some ws => some (w :: ws)
    | _, _ => none

/-- Modelled from the spec: `WeekDay.validate_week_day` is defined in
`airflow/utils/weekday.py`, which is not part of the supplied source.
Per the spec: for all invalid specifications (unknown names, empty set,
wrong type) construction fails with a configuration error, and for all
valid weekday names/sets it succeeds and yields an equivalent canonical
set of weekday numbers. -/
def WeekDay.validate_week_day : WeekDaySpec → Except String (Finset Nat)
  | .str s =>
    match WeekDay.fromName s with
    | some w => .ok {w.iso}
    | none => .error ("Invalid Week Day passed: " ++ s)
  | .day w => .ok {w.iso}
  | .coll items =>
    if items.isEmpty then .error "week_day must be a non-empty set"
    else
      match convertAll items with
      | some ws => .ok (ws.map WeekDay.iso).toFinset
      | none => .error "Invalid Week Day passed"
  | .wrongType => .error "Unsupported Type for week_day parameter"

/-- State of a constructed `DayOfWeekSensor`: the raw `week_day`
argument, the effective `use_task_logical_date` flag, and the canonical
`_week_day_num` set produced by validation. -/
structure DayOfWeekSensor where
  week_day : WeekDaySpec
  use_task_logical_date : Bool
  _week_day_num : Finset Nat
deriving DecidableEq

/-- Text of the deprecation notice for `use_task_execution_day`
(the Python source wraps the two parameter names in double backquotes). -/
def deprecationMessage : String :=
  "Parameter use_task_execution_day is deprecated. Use use_task_logical_date."

/-- Result of running `__init__`: the constructed sensor together with
the list of deprecation notices emitted during construction. -/
structure InitResult where
  sensor : DayOfWeekSensor
  warns : List String
deriving DecidableEq

/-- Embedding of `DayOfWeekSensor.__init__`: stores `week_day`, stores
`use_task_logical_date`, then, if `use_task_execution_day` is set,
overwrites the flag with it and emits the deprecation notice, and
finally computes `_week_day_num` by validation (which may raise). -/
def DayOfWeekSensor.init (week_day : WeekDaySpec) (use_task_logical_date : Bool)
    (use_task_execution_day : Bool) : Except String InitResult :=
  let effective :=
    if use_task_execution_day then use_task_execution_day else use_task_logical_date
  let ws := if use_task_execution_day then [deprecationMessage] else []
  match WeekDay.validate_week_day week_day with
  | .error e => .error e
  | .ok nums => .ok ⟨⟨week_day, effective, nums⟩, ws⟩

/-- Execution context handed to `poke`; the typed Airflow `Context`
guarantees a `logical_date` field. -/
structure Context where
  logical_date : Date
deriving DecidableEq, Repr

/-- Result of a `poke` call: the post-state of the sensor, the boolean
returned, and the log lines emitted. -/
structure PokeResult where
  sensor : DayOfWeekSensor
  value : Bool
  log : List String
deriving DecidableEq

/-- Rendering of the stored `week_day` argument for the log line
(Python interpolates `self.week_day` with `%s`). -/
def WeekDaySpec.render : WeekDaySpec → String
  | .str s => s
  | .day w => w.dayName
  | .coll items =>
    String.intercalate ", "
      (items.map fun it =>
        match it with
        | .name s => s
        | .day w => w.dayName)
  | .wrongType => "?"

/-- Embedding of `DayOfWeekSensor.poke`: logs a diagnostic line naming
the configured set and the current weekday (the enum lookup
`WeekDay(utcnow().isoweekday())` can in principle raise, hence the
`Except`), then tests membership of the ISO weekday of the logical date
or of the current date, according to `use_task_logical_date`. `now` is
the value `timezone.utcnow()` would return. -/
def DayOfWeekSensor.poke (s : DayOfWeekSensor) (context : Context) (now : Date) :
    Except String PokeResult :=
  match WeekDay.ofIso now.isoweekday with
  | none => .error "is not a valid WeekDay"
  | some today =>
    let logLine :=
      "Poking until weekday is in " ++ s.week_day.render ++ ", Today is " ++ today.dayName
    if s.use_task_logical_date then
      .ok ⟨s, decide (context.logical_date.isoweekday ∈ s._week_day_num), [logLine]⟩
    else
      .ok ⟨s, decide (now.isoweekday ∈ s._week_day_num), [logLine]⟩

/-- Decidable equality of `Except` values, so that concrete runs of the
embedded operations can be checked by evaluation. -/
instance {ε α : Type} [DecidableEq ε] [DecidableEq α] : DecidableEq (Except ε α) := fun a b =>
  match a, b with
  | .ok x, .ok y => if h : x = y then .isTrue (by rw [h]) else .isFalse (by simp [h])
  | .error x, .error y => if h : x = y then .isTrue (by rw [h]) else .isFalse (by simp [h])
  | .ok _, .error _ => .isFalse (by simp)
  | .error _, .ok _ => .isFalse (by simp)

/-- Boolean success test for an `Except` value. -/
def isOkB {ε α : Type} : Except ε α → Bool
  | .ok _ => true
  | .error _ => false

/-- Invalid weekday specifications according to the spec: an unknown
weekday name, an empty set, or a wrong type. -/
def WeekDaySpec.isInvalid : WeekDaySpec → Bool
  | .str s => (WeekDay.fromName s).isNone
  | .day _ => false
  | .coll items => items.isEmpty || items.any fun it => (WeekDayItem.convert it).isNone
  | .wrongType => true

/-- Canonical set of ISO weekday numbers equivalent to a specification
(meaningful on valid specifications). -/
def WeekDaySpec.canonicalNums : WeekDaySpec → Finset Nat
  | .str s =>
    match WeekDay.fromName s with
    | some w => {w.iso}
    | none => ∅
  | .day w => {w.iso}
  | .coll items => ((items.filterMap WeekDayItem.convert).map WeekDay.iso).toFinset
  | .wrongType => ∅

/-- Sample sensor waiting for Saturday on the logical date. -/
def satSensor : DayOfWeekSensor := ⟨.day .SATURDAY, true, {6}⟩

/-- The date 2018-12-22, a Saturday. -/
def dec22 : Date := ⟨2018, 12, 22⟩

/-- The date 2018-12-21, a Friday. -/
def dec21 : Date := ⟨2018, 12, 21⟩

/-- Context whose logical date is 2018-12-22. -/
def ctx22 : Context := ⟨dec22⟩

/-- Result of poking `satSensor` with logical date and clock both on
2018-12-22. -/
def satPokeR : PokeResult :=
  ⟨satSensor, true, ["Poking until weekday is in SATURDAY, Today is SATURDAY"]⟩

/-- Result of poking `satSensor` with logical date 2018-12-22 while the
clock reads 2018-12-21. -/
def satPokeR21 : PokeResult :=
  ⟨satSensor, true, ["Poking until weekday is in SATURDAY, Today is FRIDAY"]⟩

/-- Construction result for `satSensor`. -/
def satRes : InitResult := ⟨satSensor, []⟩

/-- The weekend specification passed as a set of two enum values. -/
def weekendSpec : WeekDaySpec := .coll [.day .SATURDAY, .day .SUNDAY]

/-- Construction result for the weekend specification in logical-date
mode. -/
def weekendRes : InitResult := ⟨⟨weekendSpec, true, {6, 7}⟩, []⟩

/-- Sample sensor waiting for Friday on the system clock. -/
def clockSensor : DayOfWeekSensor := ⟨.str "Friday", false, {5}⟩

/-- Result of poking `clockSensor` when the clock reads 2018-12-21. -/
def clockR : PokeResult :=
  ⟨clockSensor, true, ["Poking until weekday is in Friday, Today is FRIDAY"]⟩

/-- Construction result when the deprecated flag is set. -/
def depRes1 : InitResult := ⟨⟨.day .SATURDAY, true, {6}⟩, [deprecationMessage]⟩

/-- Construction result when the new flag is set directly. -/
def depRes2 : InitResult := ⟨⟨.day .SATURDAY, true, {6}⟩, []⟩

/-- Bounds of the ISO numbering: every `WeekDay` maps into 1..7. -/
theorem WeekDay.iso_bounds (w : WeekDay) : 1 ≤ w.iso ∧ w.iso ≤ 7 := by
  cases w <;> simp [WeekDay.iso]

/-- Enum lookup by number succeeds on every value of the form `n + 1`
with `n < 7`. -/
theorem WeekDay.ofIso_lt (n : Nat) (h : n < 7) : ∃ w, WeekDay.ofIso (n + 1) = some w := by
  interval_cases n <;> exact ⟨_, rfl⟩

/-- Enum lookup by number succeeds on every ISO weekday of a date. -/
theorem WeekDay.ofIso_isoweekday (dt : Date) : ∃ w, WeekDay.ofIso dt.isoweekday = some w := by
  unfold Date.isoweekday
  exact WeekDay.ofIso_lt _ (Nat.mod_lt _ (by norm_num))

/-- Evaluation equation for `poke`: once the enum lookup of the current
weekday succeeds, `poke` returns the unchanged sensor, the membership
test of the selected reference date, and a single log line. -/
theorem poke_eq_ok (s : DayOfWeekSensor) (context : Context) (now : Date) (w : WeekDay)
    (hw : WeekDay.ofIso now.isoweekday = some w) :
    s.poke context now = .ok ⟨s,
      decide ((if s.use_task_logical_date then context.logical_date else now).isoweekday
        ∈ s._week_day_num),
      ["Poking until weekday is in " ++ s.week_day.render ++ ", Today is " ++ w.dayName]⟩ := by
  cases hs : s.use_task_logical_date <;> simp [DayOfWeekSensor.poke, hw, hs]

/-- Item-wise failure characterization of `convertAll`: it fails exactly
when some item has an unknown name. -/
theorem convertAll_none_iff (items : List WeekDayItem) :
    convertAll items = none ↔
      (items.any fun it => (WeekDayItem.convert it).isNone) = true := by
  induction items with
  | nil => simp [convertAll]
  | cons it rest ih =>
    cases h : it.convert <;> cases h2 : convertAll rest <;>
      simp [convertAll, h, h2, Option.isNone] at ih ⊢ <;> exact ih

/-- Success value of `convertAll`: the item-wise conversions. -/
theorem convertAll_some (items : List WeekDayItem) (ws : List WeekDay)
    (h : convertAll items = some ws) : ws = items.filterMap WeekDayItem.convert := by
  induction items generalizing ws with
  | nil =>
    simp [convertAll] at h
    simp [h.symm]
  | cons it rest ih =>
    cases hc : it.convert <;> cases h2 : convertAll rest <;>
      simp [convertAll, hc, h2] at h
    simp [List.filterMap_cons, hc, h.symm, ih _ h2]

/-- Canonical set produced by successful validation. -/
theorem validate_ok_canonical (spec : WeekDaySpec) (nums : Finset Nat)
    (h : WeekDay.validate_week_day spec = .ok nums) : nums = spec.canonicalNums := by
  cases spec with
  | str s =>
    cases hn : WeekDay.fromName s <;>
      simp [WeekDay.validate_week_day, WeekDaySpec.canonicalNums, hn] at h ⊢ <;> simp [h.symm]
  | day w =>
    simp [WeekDay.validate_week_day, WeekDaySpec.canonicalNums] at h ⊢
    simp [h.symm]
  | coll items =>
    cases items with
    | nil => simp [WeekDay.validate_week_day] at h
    | cons it rest =>
      cases hc : convertAll (it :: rest) <;>
        simp [WeekDay.validate_week_day, hc] at h
      simp [WeekDaySpec.canonicalNums, h.symm, convertAll_some _ _ hc]
  | wrongType => simp [WeekDay.validate_week_day] at h

/-- Validation link of `init`: on success, `_week_day_num` is exactly
the set returned by `validate_week_day`. -/
theorem init_week_day_num (spec : WeekDaySpec) (a b : Bool) (res : InitResult)
    (h : DayOfWeekSensor.init spec a b = .ok res) :
    WeekDay.validate_week_day spec = .ok res.sensor._week_day_num := by
  cases hv : WeekDay.validate_week_day spec <;>
    simp [DayOfWeekSensor.init, hv] at h
  simp [h.symm]

/-- Bounds of the canonical number set of any specification. -/
theorem canonical_mem_bounds (spec : WeekDaySpec) :
    ∀ n ∈ spec.canonicalNums, 1 ≤ n ∧ n ≤ 7 := by
  intro n hn
  cases spec with
  | str s =>
    cases hm : WeekDay.fromName s <;> simp [WeekDaySpec.canonicalNums, hm] at hn
    exact hn ▸ WeekDay.iso_bounds _
  | day w =>
    simp [WeekDaySpec.canonicalNums] at hn
    exact hn ▸ WeekDay.iso_bounds w
  | coll items =>
    simp [WeekDaySpec.canonicalNums, List.mem_toFinset, List.mem_map] at hn
    obtain ⟨w, _, hw⟩ := hn
    exact hw ▸ WeekDay.iso_bounds w
  | wrongType => simp [WeekDaySpec.canonicalNums] at hn

/-- Bounds of any set produced by successful validation. -/
theorem validate_mem_bounds (spec : WeekDaySpec) (nums : Finset Nat)
    (h : WeekDay.validate_week_day spec = .ok nums) : ∀ n ∈ nums, 1 ≤ n ∧ n ≤ 7 := by
  intro n hn
  rw [validate_ok_canonical spec nums h] at hn
  exact canonical_mem_bounds spec n hn

/-- Value equation for `poke`: the boolean returned is the membership
test of the ISO weekday of the selected reference date. -/
theorem poke_value_eq (s : DayOfWeekSensor) (context : Context) (now : Date) (r : PokeResult)
    (hr : s.poke context now = .ok r) :
    r.value = decide ((if s.use_task_logical_date then context.logical_date else now).isoweekday
      ∈ s._week_day_num) := by
  obtain ⟨w, hw⟩ := WeekDay.ofIso_isoweekday now
  rw [poke_eq_ok _ _ _ w hw] at hr
  injection hr with hr
  subst hr
  rfl

/-- Membership reading of the value equation in logical-date mode. -/
theorem poke_value_iff (s : DayOfWeekSensor) (context : Context) (now : Date) (r : PokeResult)
    (hs : s.use_task_logical_date = true) (hr : s.poke context now = .ok r) :
    r.value = true ↔ context.logical_date.isoweekday ∈ s._week_day_num := by
  rw [poke_value_eq s context now r hr, hs]
  simp

/-- C1: `poke` returns true if and only if the ISO weekday number of
the selected reference date (the logical date in logical-date mode, the
current system date otherwise) is a member of the configured
allowed-weekday set; with configured set containing SATURDAY and
SUNDAY, logical date 2018-12-22 yields true and 2018-12-21 yields
false. -/
theorem poke_true_iff_weekday_mem :
    (∀ (s : DayOfWeekSensor) (context : Context) (now : Date) (r : PokeResult),
        s.poke context now = .ok r →
        (r.value = true ↔
          (if s.use_task_logical_date then context.logical_date else now).isoweekday
            ∈ s._week_day_num)) ∧
    (∀ res : InitResult, DayOfWeekSensor.init weekendSpec true false = .ok res →
      ∀ r1 r2 : PokeResult,
        res.sensor.poke ⟨⟨2018, 12, 22⟩⟩ ⟨2018, 12, 22⟩ = .ok r1 →
        res.sensor.poke ⟨⟨2018, 12, 21⟩⟩ ⟨2018, 12, 21⟩ = .ok r2 →
        r1.value = true ∧ r2.value = false) := by
  constructor
  · intro s context now r hr
    rw [poke_value_eq s context now r hr]
    simp
  · intro res hres r1 r2 h1 h2
    have e1 : DayOfWeekSensor.init weekendSpec true false = .ok weekendRes := by decide
    rw [e1] at hres
    injection hres with hres
    subst hres
    constructor
    · exact (poke_value_iff _ _ _ _ (by decide) h1).mpr (by decide)
    · have hiff := poke_value_iff weekendRes.sensor _ _ r2 (by decide) h2
      have hnot : ¬ ((⟨⟨2018, 12, 21⟩⟩ : Context).logical_date.isoweekday
          ∈ weekendRes.sensor._week_day_num) := by decide
      cases hb : r2.value
      · rfl
      · exact absurd (hiff.mp hb) hnot

/-- C1 witness: the general membership equivalence instantiated on the
Saturday sensor with logical date 2018-12-22. -/
theorem poke_true_iff_weekday_mem_witness :
    satSensor.poke ctx22 dec22 = .ok satPokeR ∧
      (satPokeR.value = true ↔
        (if satSensor.use_task_logical_date then ctx22.logical_date else dec22).isoweekday
          ∈ satSensor._week_day_num) :=
  ⟨by decide, poke_true_iff_weekday_mem.1 satSensor ctx22 dec22 satPokeR (by decide)⟩

/-- C2: construction fails exactly on the invalid specifications
(unknown name, empty set, wrong type) and on every valid specification
it succeeds and stores the equivalent canonical set of weekday
numbers. -/
theorem init_validates_spec (spec : WeekDaySpec) (a b : Bool) :
    isOkB (DayOfWeekSensor.init spec a b) = !spec.isInvalid ∧
      ∀ res, DayOfWeekSensor.init spec a b = .ok res →
        res.sensor._week_day_num = spec.canonicalNums := by
  constructor
  · cases spec with
    | str s =>
      cases hn : WeekDay.fromName s <;>
        simp [DayOfWeekSensor.init, WeekDay.validate_week_day, WeekDaySpec.isInvalid, isOkB,
          hn, Option.isNone]
    | day w =>
      simp [DayOfWeekSensor.init, WeekDay.validate_week_day, WeekDaySpec.isInvalid, isOkB]
    | coll items =>
      cases items with
      | nil =>
        simp [DayOfWeekSensor.init, WeekDay.validate_week_day, WeekDaySpec.isInvalid, isOkB]
      | cons it rest =>
        cases hc : convertAll (it :: rest) with
        | none =>
          have hany := (convertAll_none_iff _).mp hc
          simp [DayOfWeekSensor.init, WeekDay.validate_week_day, WeekDaySpec.isInvalid, isOkB,
            hc, hany]
        | some ws =>
          have hany : ((it :: rest).any fun x => (WeekDayItem.convert x).isNone) = false := by
            cases ha : (it :: rest).any fun x => (WeekDayItem.convert x).isNone
            · rfl
            · exact absurd ((convertAll_none_iff _).mpr ha) (by simp [hc])
          simp [DayOfWeekSensor.init, WeekDay.validate_week_day, WeekDaySpec.isInvalid, isOkB,
            hc, hany]
    | wrongType =>
      simp [DayOfWeekSensor.init, WeekDay.validate_week_day, WeekDaySpec.isInvalid, isOkB]
  · intro res h
    exact validate_ok_canonical spec _ (init_week_day_num spec a b res h)

/-- C2 witness: the weekend specification is valid and construction
stores its canonical number set. -/
theorem init_validates_spec_witness :
    isOkB (DayOfWeekSensor.init weekendSpec true false) = !weekendSpec.isInvalid ∧
      weekendRes.sensor._week_day_num = weekendSpec.canonicalNums :=
  ⟨(init_validates_spec weekendSpec true false).1,
   (init_validates_spec weekendSpec true false).2 weekendRes (by decide)⟩

/-- C3: every successfully constructed sensor evaluates without error
on every context and every clock reading. -/
theorem poke_never_raises (spec : WeekDaySpec) (a b : Bool) (res : InitResult)
    (h : DayOfWeekSensor.init spec a b = .ok res) (context : Context) (now : Date) :
    isOkB (res.sensor.poke context now) = true := by
  obtain ⟨w, hw⟩ := WeekDay.ofIso_isoweekday now
  rw [poke_eq_ok _ _ _ w hw]
  rfl

/-- C3 witness: the Saturday sensor constructed successfully and its
poke succeeds. -/
theorem poke_never_raises_witness :
    DayOfWeekSensor.init (.day .SATURDAY) true false = .ok satRes ∧
      isOkB (satRes.sensor.poke ctx22 dec22) = true :=
  ⟨by decide, poke_never_raises (.day .SATURDAY) true false satRes (by decide) ctx22 dec22⟩

/-- C4: the returned boolean is the membership test of the logical date
when `use_task_logical_date` is true and of the current system date
otherwise, with the membership test itself unchanged. -/
theorem poke_date_source (s : DayOfWeekSensor) (context : Context) (now : Date) (r : PokeResult)
    (h : s.poke context now = .ok r) :
    r.value = decide ((if s.use_task_logical_date then context.logical_date else now).isoweekday
      ∈ s._week_day_num) :=
  poke_value_eq s context now r h

/-- C4 witness: the clock-mode sensor reads the system date
2018-12-21, a Friday, and returns true. -/
theorem poke_date_source_witness :
    clockSensor.poke ctx22 dec21 = .ok clockR ∧
      clockR.value = decide ((if clockSensor.use_task_logical_date then ctx22.logical_date
        else dec21).isoweekday ∈ clockSensor._week_day_num) :=
  ⟨by decide, poke_date_source clockSensor ctx22 dec21 clockR (by decide)⟩

/-- C5: constructing with the deprecated `use_task_execution_day` flag
set yields a sensor whose evaluation behaviour is identical to one
constructed with `use_task_logical_date` set directly, and emits the
deprecation notice exactly once. -/
theorem deprecated_alias_equiv (spec : WeekDaySpec) (x : Bool) (res1 res2 : InitResult)
    (h1 : DayOfWeekSensor.init spec x true = .ok res1)
    (h2 : DayOfWeekSensor.init spec true false = .ok res2) :
    (∀ (context : Context) (now : Date),
        res1.sensor.poke context now = res2.sensor.poke context now) ∧
      res1.warns = [deprecationMessage] := by
  cases hv : WeekDay.validate_week_day spec with
  | error e => simp [DayOfWeekSensor.init, hv] at h1
  | ok nums =>
    have e1 : DayOfWeekSensor.init spec x true =
        .ok ⟨⟨spec, true, nums⟩, [deprecationMessage]⟩ := by
      simp [DayOfWeekSensor.init, hv]
    have e2 : DayOfWeekSensor.init spec true false = .ok ⟨⟨spec, true, nums⟩, []⟩ := by
      simp [DayOfWeekSensor.init, hv]
    rw [e1] at h1
    rw [e2] at h2
    injection h1 with h1
    injection h2 with h2
    subst h1
    subst h2
    exact ⟨fun context now => rfl, rfl⟩

/-- C5 witness: the deprecated flag on the Saturday specification gives
the same poke outcome as the direct flag, plus one notice. -/
theorem deprecated_alias_equiv_witness :
    DayOfWeekSensor.init (.day .SATURDAY) false true = .ok depRes1 ∧
      DayOfWeekSensor.init (.day .SATURDAY) true false = .ok depRes2 ∧
      depRes1.sensor.poke ctx22 dec22 = depRes2.sensor.poke ctx22 dec22 ∧
      depRes1.warns = [deprecationMessage] :=
  ⟨by decide, by decide,
   (deprecated_alias_equiv (.day .SATURDAY) false depRes1 depRes2 (by decide) (by decide)).1
     ctx22 dec22,
   (deprecated_alias_equiv (.day .SATURDAY) false depRes1 depRes2 (by decide) (by decide)).2⟩

/-- C6: after successful construction every member of `_week_day_num`
lies in 1..7, and every poke call leaves the set unchanged. -/
theorem week_day_num_invariant (spec : WeekDaySpec) (a b : Bool) (res : InitResult)
    (h : DayOfWeekSensor.init spec a b = .ok res) :
    (∀ n ∈ res.sensor._week_day_num, 1 ≤ n ∧ n ≤ 7) ∧
      ∀ (context : Context) (now : Date) (r : PokeResult),
        res.sensor.poke context now = .ok r →
        r.sensor._week_day_num = res.sensor._week_day_num := by
  constructor
  · exact validate_mem_bounds spec _ (init_week_day_num spec a b res h)
  · intro context now r hr
    obtain ⟨w, hw⟩ := WeekDay.ofIso_isoweekday now
    rw [poke_eq_ok _ _ _ w hw] at hr
    injection hr with hr
    subst hr
    rfl

/-- C6 witness: the Saturday sensor's set contains 6, which lies in
1..7, and poking preserves the set. -/
theorem week_day_num_invariant_witness :
    DayOfWeekSensor.init (.day .SATURDAY) true false = .ok satRes ∧
      (1 ≤ 6 ∧ 6 ≤ 7) ∧
      satRes.sensor.poke ctx22 dec22 = .ok satPokeR ∧
      satPokeR.sensor._week_day_num = satRes.sensor._week_day_num :=
  ⟨by decide,
   (week_day_num_invariant (.day .SATURDAY) true false satRes (by decide)).1 6 (by decide),
   by decide,
   (week_day_num_invariant (.day .SATURDAY) true false satRes (by decide)).2
     ctx22 dec22 satPokeR (by decide)⟩

/-- C7: two poke calls with the same sensor, context and clock return
the same boolean, in either mode, and that boolean is the membership of
the ISO weekday of the fixed selected reference date in the allowed
set. -/
theorem poke_deterministic (s : DayOfWeekSensor) (context : Context) (now : Date)
    (r1 r2 : PokeResult)
    (h1 : s.poke context now = .ok r1) (h2 : s.poke context now = .ok r2) :
    r1.value = r2.value ∧
      (r1.value = true ↔
        (if s.use_task_logical_date then context.logical_date else now).isoweekday
          ∈ s._week_day_num) := by
  have e := h1.symm.trans h2
  injection e with e
  refine ⟨by rw [e], ?_⟩
  rw [poke_value_eq s context now r1 h1]
  simp

/-- C7 witness: repeated pokes of the clock-mode Friday sensor with the
clock fixed on 2018-12-21 agree and match the membership test. -/
theorem poke_deterministic_witness :
    clockSensor.poke ctx22 dec21 = .ok clockR ∧
      clockR.value = clockR.value ∧
      (clockR.value = true ↔
        (if clockSensor.use_task_logical_date then ctx22.logical_date else dec21).isoweekday
          ∈ clockSensor._week_day_num) :=
  ⟨by decide,
   (poke_deterministic clockSensor ctx22 dec21 clockR clockR (by decide) (by decide)).1,
   (poke_deterministic clockSensor ctx22 dec21 clockR clockR (by decide) (by decide)).2⟩

/-- C8: poke leaves every field of the sensor unchanged and emits
exactly one log line. -/
theorem poke_frame (s : DayOfWeekSensor) (context : Context) (now : Date) (r : PokeResult)
    (h : s.poke context now = .ok r) :
    r.sensor.week_day = s.week_day ∧
      r.sensor.use_task_logical_date = s.use_task_logical_date ∧
      r.sensor._week_day_num = s._week_day_num ∧ r.log.length = 1 := by
  obtain ⟨w, hw⟩ := WeekDay.ofIso_isoweekday now
  rw [poke_eq_ok _ _ _ w hw] at h
  injection h with h
  subst h
  exact ⟨rfl, rfl, rfl, rfl⟩

/-- C8 witness: poking the Saturday sensor preserves all three fields
and logs one line. -/
theorem poke_frame_witness :
    satSensor.poke ctx22 dec22 = .ok satPokeR ∧
      satPokeR.sensor.week_day = satSensor.week_day ∧
      satPokeR.sensor.use_task_logical_date = satSensor.use_task_logical_date ∧
      satPokeR.sensor._week_day_num = satSensor._week_day_num ∧ satPokeR.log.length = 1 :=
  ⟨by decide,
   (poke_frame satSensor ctx22 dec22 satPokeR (by decide)).1,
   (poke_frame satSensor ctx22 dec22 satPokeR (by decide)).2.1,
   (poke_frame satSensor ctx22 dec22 satPokeR (by decide)).2.2.1,
   (poke_frame satSensor ctx22 dec22 satPokeR (by decide)).2.2.2⟩

/-- C9: in logical-date mode the boolean returned by poke does not
depend on the system clock: two calls with the same configuration and
logical date but different clock readings agree. -/
theorem poke_clock_independent (s : DayOfWeekSensor) (context : Context)
    (now1 now2 : Date) (r1 r2 : PokeResult) (hs : s.use_task_logical_date = true)
    (h1 : s.poke context now1 = .ok r1) (h2 : s.poke context now2 = .ok r2) :
    r1.value = r2.value := by
  rw [poke_value_eq s context now1 r1 h1, poke_value_eq s context now2 r2 h2, hs]
  simp

/-- C9 witness: poking the Saturday sensor at two different clock dates
with the same logical date gives the same boolean. -/
theorem poke_clock_independent_witness :
    satSensor.use_task_logical_date = true ∧
      satSensor.poke ctx22 dec21 = .ok satPokeR21 ∧
      satSensor.poke ctx22 dec22 = .ok satPokeR ∧
      satPokeR21.value = satPokeR.value :=
  ⟨rfl, by decide, by decide,
   poke_clock_independent satSensor ctx22 dec21 dec22 satPokeR21 satPokeR rfl
     (by decide) (by decide)⟩

/-- C10: the effective `use_task_logical_date` after construction is
the boolean OR of the two constructor flags, and the deprecation notice
is emitted exactly when `use_task_execution_day` is set. -/
theorem init_effective_mode (spec : WeekDaySpec) (a b : Bool) (res : InitResult)
    (h : DayOfWeekSensor.init spec a b = .ok res) :
    res.sensor.use_task_logical_date = (a || b) ∧
      res.warns = if b then [deprecationMessage] else [] := by
  cases hv : WeekDay.validate_week_day spec with
  | error e => simp [DayOfWeekSensor.init, hv] at h
  | ok nums =>
    have e1 : DayOfWeekSensor.init spec a b =
        .ok ⟨⟨spec, if b then b else a, nums⟩, if b then [deprecationMessage] else []⟩ := by
      simp [DayOfWeekSensor.init, hv]
    rw [e1] at h
    injection h with h
    subst h
    cases b <;> simp

/-- C10 witness: the deprecated flag alone forces logical-date mode and
emits the notice even though the new flag was passed as false. -/
theorem init_effective_mode_witness :
    DayOfWeekSensor.init (.day .SATURDAY) false true = .ok depRes1 ∧
      depRes1.sensor.use_task_logical_date = (false || true) ∧
      depRes1.warns = if true then [deprecationMessage] else [] :=
  ⟨by decide,
   (init_effective_mode (.day .SATURDAY) false true depRes1 (by decide)).1,
   (init_effective_mode (.day .SATURDAY) false true depRes1 (by decide)).2⟩

end Airflow
